import Mathlib

/-!
Verification development for the PyFHD observation builder
(src/PyFHD/data_setup/obs.py): `create_obs`, `read_metafits` and
`project_slant_orthographic`.

Python/numpy floating point is modelled over the reals; numpy arrays are
Lean lists; a Python value that may be None is an `Option`; a Python
exception (TypeError on None arithmetic, ValueError from a math domain
error, IndexError, ZeroDivisionError, numpy reductions over empty arrays)
is `Except.error PyError.raised`; the `exit()` call in `read_metafits` is
`Except.error PyError.exited`.  The METAFITS file lookup
(`Path(...).is_file()` plus `fits.open`) is modelled by an
`Option MetafitsFile` input: `none` means the file does not exist.
Logger warnings that the claims talk about are returned as lists of
message strings.
-/

open Classical

/-- Outcome of a raised Python exception (`raised`) or of the explicit
`exit()` call in `read_metafits` (`exited`). -/
inductive PyError
  | raised
  | exited
  deriving DecidableEq

/-- The UVFITS-header record `pyfhd_header` (fields used by obs.py). -/
structure PyfhdHeader where
  n_pol : ℕ
  n_tile : ℝ
  n_freq : ℕ
  freq_res : ℝ
  frequency_array : List ℝ
  lat : ℝ
  lon : ℝ
  alt : ℝ
  obsra : ℝ
  obsdec : ℝ

/-- The per-visibility `params` record (arrays from the UVFITS table). -/
structure Params where
  time : List ℝ
  uu : List ℝ
  vv : List ℝ
  antenna1 : List ℝ
  antenna2 : List ℝ
  baseline_arr : List ℝ

/-- The `pyfhd_config` record (options used by obs.py; a missing or
unset option is `none`). -/
structure PyfhdConfig where
  instrument : String
  beam_nfreq_avg : Option ℝ
  FoV : Option ℝ
  kbinsize : Option ℝ
  dimension : Option ℝ
  elements : Option ℝ
  min_baseline : Option ℝ
  run_simulation : Bool
  input_path : String
  obs_id : String

/-- One row of the METAFITS binary table (columns used by obs.py). -/
structure MetafitsRow where
  antenna : ℤ
  pol : String
  tile : ℝ
  height : ℝ
  flag : ℤ

/-- The METAFITS file: primary-header scalars and the binary table rows. -/
structure MetafitsFile where
  ra : ℝ
  dec : ℝ
  raphase : ℝ
  decphase : ℝ
  inttime : ℝ
  delays : String
  rows : List MetafitsRow

/-- The `baseline_info` sub-record of `obs`. -/
structure BaselineInfo where
  bin_offset : List ℤ
  freq : List ℝ
  fbin_i : List ℝ
  freq_use : ℕ
  tile_use : ℝ
  tile_A : List ℝ
  tile_B : List ℝ

/-- The observation record `obs` built by `create_obs`. -/
structure Obs where
  n_pol : ℕ
  n_tile : ℝ
  n_freq : ℕ
  instrument : String
  n_time : ℕ
  n_baselines : ℝ
  n_vis : ℕ
  n_vis_raw : ℕ
  n_vis_in : ℕ
  n_vis_arr : List ℤ
  freq_res : ℝ
  beam_nfreq_avg : ℝ
  freq_center : ℝ
  kbinsize : ℝ
  dimension : ℤ
  elements : ℤ
  degpix : ℝ
  max_baseline : ℝ
  min_baseline : ℝ
  baseline_info : BaselineInfo

/-- The WCS-like astrometry record built by `project_slant_orthographic`. -/
structure Astr where
  naxis : ℤ × ℤ
  cd : (ℝ × ℝ) × (ℝ × ℝ)
  cdelt : ℝ × ℝ
  crpix : ℝ × ℝ
  crval : ℝ × ℝ
  ctype : String × String
  longpole : ℝ
  latpole : ℝ
  pv2 : ℝ × ℝ
  pv1 : List ℝ
  axes : ℤ × ℤ
  reverse : ℤ
  coord_sys : String
  projection : String
  known : List ℤ
  radecsys : String
  equinox : ℝ
  date_obs : ℝ
  mjd_obs : ℝ
  x0y0 : ℝ × ℝ

/-- The part of the metadata record `meta` that `read_metafits` fills in
before calling `project_slant_orthographic`. -/
structure MetaPre where
  jdate : List ℝ
  obsx : ℝ
  obsy : ℝ
  jd0 : ℝ
  epoch : ℝ
  tile_names : List ℝ
  tile_height : List ℝ
  tile_flag : List ℤ
  time_res : ℝ
  obsra : ℝ
  obsdec : ℝ
  phasera : ℝ
  phasedec : ℝ
  delays : Option (List String)
  zenra : ℝ
  zendec : ℝ

/-- The full metadata record returned by `read_metafits`. -/
structure Meta extends MetaPre where
  astr : Astr
  zenx : ℝ
  zeny : ℝ
  obsalt : ℝ
  obsaz : ℝ

/-- The fields of a metadata branch (METAFITS table present or absent)
that differ between the two branches of `read_metafits`. -/
structure MetaBranch where
  tile_names : List ℝ
  tile_height : List ℝ
  tile_flag : List ℤ
  time_res : ℝ
  obsra : ℝ
  obsdec : ℝ
  phasera : ℝ
  phasedec : ℝ
  delays : Option (List String)
  warns : List String

/-- numpy `np.max` over a nonempty array (callers guard emptiness, since
numpy raises on an empty reduction). -/
noncomputable def listMax : List ℝ → ℝ
  | [] => 0
  | a :: as => as.foldl max a

/-- numpy `np.min` over a nonempty array (callers guard emptiness). -/
noncomputable def listMin : List ℝ → ℝ
  | [] => 0
  | a :: as => as.foldl min a

/-- Python `int(x)` on a float: truncation toward zero.  numpy `np.fix`
computes the same quantity as a float. -/
noncomputable def pyInt (x : ℝ) : ℤ := if 0 ≤ x then ⌊x⌋ else ⌈x⌉

/-- Python float modulo `x % m` (the result carries the sign of `m`). -/
noncomputable def pyMod (x m : ℝ) : ℝ := x - m * ⌊x / m⌋

/-- `math.log10`. -/
noncomputable def log10 (x : ℝ) : ℝ := Real.log x / Real.log 10

/-- numpy `np.radians`: degrees to radians. -/
noncomputable def radians (x : ℝ) : ℝ := x * Real.pi / 180

/-- numpy `np.outer(a, b)` flattened row-major, as used for
`kx_arr`/`ky_arr` in `create_obs` line 102. -/
noncomputable def outerProd (a b : List ℝ) : List ℝ :=
  (a.map (fun x => b.map (fun y => x * y))).flatten

/-- Modelled from the spec: the omitted utility `idl_argunique` from
pyfhd_tools (the spec treats the histogram and uniqueness utilities as
correct external collaborators).  IDL `uniq` semantics: the indices i
such that i is the last index or entry i differs from entry i+1. -/
noncomputable def idl_argunique (l : List ℝ) : List ℕ :=
  (List.range l.length).filter
    (fun i => decide (i + 1 = l.length ∨ ¬ l.getD i 0 = l.getD (i + 1) 0))

/-- Modelled from the spec: bin index assigned by the omitted
pyfhd_tools `histogram` utility (IDL histogram with bin size `binSize`
starting from the data minimum `mn`). -/
noncomputable def histogram_bin (mn binSize x : ℝ) : ℤ := ⌊(x - mn) / binSize⌋

/-- Modelled from the spec: counts of the omitted pyfhd_tools
`histogram` utility with unit bins between `mn` and `mn + nbins - 1`,
as called with min = 1, max = n_tile in the `read_metafits` fallback
branch. -/
noncomputable def histogram_counts (l : List ℝ) (mn : ℤ) (nbins : ℕ) : List ℕ :=
  (List.range nbins).map
    (fun k : ℕ => (l.filter (fun a => decide (⌊a⌋ = mn + (k : ℤ)))).length)

/-- Modelled from the spec: numpy `np.median` (external collaborator). -/
noncomputable def npMedian (l : List ℝ) : ℝ :=
  let s := l.mergeSort (fun a b => decide (a ≤ b))
  if l.length % 2 = 1 then s.getD (l.length / 2) 0
  else (s.getD (l.length / 2 - 1) 0 + s.getD (l.length / 2) 0) / 2

/-- Modelled from the spec: astropy decimal-year conversion of the
reference Julian date (the value feeds only the `epoch` metadata
field, which no claim inspects). -/
noncomputable def jdToDecimalYear (jd : ℝ) : ℝ := 2000 + (jd - 2451544.5) / 365.25

/-- Modelled from the spec: the omitted pyfhd_tools `angle_difference`,
the angular separation in degrees (when `degree` is true) between two
sky positions given in degrees; the spec uses it for the zenith angle
between the phase center and the zenith point. -/
noncomputable def angle_difference (ra1 dec1 ra2 dec2 : ℝ) (degree : Bool) : ℝ :=
  let sep := Real.arccos (Real.sin (radians dec1) * Real.sin (radians dec2) +
    Real.cos (radians dec1) * Real.cos (radians dec2) * Real.cos (radians ra1 - radians ra2))
  if degree then (180 / Real.pi) * sep else sep

/-- Modelled from the spec: the omitted pyfhd_tools `parallactic_angle`
(angle between celestial north and the local zenith direction), in
degrees.  Only its totality matters to the claims. -/
noncomputable def parallactic_angle (lat lonOffset dec : ℝ) : ℝ :=
  (180 / Real.pi) * Real.arctan
    (Real.sin (radians lonOffset) /
      (Real.cos (radians dec) * Real.tan (radians lat) -
        Real.sin (radians dec) * Real.cos (radians lonOffset)))

/-- Modelled from the spec: the omitted unit_conv `altaz_to_radec`
(zenith pointing RA/Dec at the reference time).  A closed-form
alt-az to equatorial conversion; only its totality matters. -/
noncomputable def altaz_to_radec (alt az lat lon height jd : ℝ) : ℝ × ℝ :=
  let lst := 280.46061837 + 360.98564736629 * (jd - 2451545) + lon + height * 0
  let dec := Real.arcsin (Real.sin (radians alt) * Real.sin (radians lat) +
    Real.cos (radians alt) * Real.cos (radians lat) * Real.cos (radians az))
  let ha := Real.arccos ((Real.sin (radians alt) -
    Real.sin (radians lat) * Real.sin dec) / (Real.cos (radians lat) * Real.cos dec))
  (lst - (180 / Real.pi) * ha, (180 / Real.pi) * dec)

/-- Modelled from the spec: the omitted unit_conv `radec_to_altaz`
(telescope local alt-az orientation); only its totality matters. -/
noncomputable def radec_to_altaz (ra dec lat lon height jd : ℝ) : ℝ × ℝ :=
  let lst := 280.46061837 + 360.98564736629 * (jd - 2451545) + lon + height * 0
  let ha := lst - ra
  let alt := Real.arcsin (Real.sin (radians dec) * Real.sin (radians lat) +
    Real.cos (radians dec) * Real.cos (radians lat) * Real.cos (radians ha))
  (((180 / Real.pi) * alt),
    (180 / Real.pi) * Real.arctan (Real.sin (radians ha) /
      (Real.cos (radians ha) * Real.sin (radians lat) -
        Real.tan (radians dec) * Real.cos (radians lat))))

/-- Modelled from the spec: the omitted unit_conv `radec_to_pixel`
(WCS sky-to-pixel mapping; a linear approximation around the reference
point).  Only its totality matters. -/
noncomputable def radec_to_pixel (ra dec : ℝ) (astr : Astr) : ℝ × ℝ :=
  (astr.crpix.1 - 1 + (ra - astr.crval.1) / astr.cdelt.1,
    astr.crpix.2 - 1 + (dec - astr.crval.2) / astr.cdelt.2)

/-- Warning message logged by `read_metafits` when the METAFITS file is
missing (obs.py line 200). -/
def metafitsMissingMsg : String :=
  "METAFITS file has not been found, Calculating obs meta settings from the uvfits header instead"

/-- Warning message logged by `read_metafits` when all tiles but one are
flagged under a simulation run (obs.py line 189). -/
def allFlaggedMsg : String := "All tiles flagged in metadata"

/-- Warning message logged by `create_obs` when the decoded tile count
disagrees with the header (obs.py line 93, without the interpolated
counts). -/
def misMatchedMsg : String :=
  "Mis-matched n_tiles between header and data, adjusting n_tiles to be same as data"

/-- obs.py lines 83 to 89: the packed-baseline modulus.
baseline_min is the array minimum; the modulus is the power of two at
or below it, halved by a correction power when the fit is bad. -/
noncomputable def antenna_mod_index (baseline_arr : List ℝ) : ℝ :=
  let baseline_min := listMin baseline_arr
  let exponent := Real.log baseline_min / Real.log 2
  let m0 : ℝ := (2 : ℝ) ^ (⌊exponent⌋ : ℤ)
  let tile_B_test := pyMod baseline_min m0
  if 1 < tile_B_test ∧ pyMod baseline_min 2 = 1 then
    m0 / (2 : ℝ) ^ (⌊Real.log tile_B_test / Real.log 2⌋ : ℤ)
  else m0

/-- obs.py line 90: `tile_A = np.floor(baseline_arr / antenna_mod_index)`
(a float array, hence real-valued floors). -/
noncomputable def decode_tile_A (baseline_arr : List ℝ) : List ℝ :=
  baseline_arr.map (fun b => ((⌊b / antenna_mod_index baseline_arr⌋ : ℤ) : ℝ))

/-- obs.py line 91: `tile_B = np.fix(baseline_arr / antenna_mod_index)`
(truncation toward zero, as a float array). -/
noncomputable def decode_tile_B (baseline_arr : List ℝ) : List ℝ :=
  baseline_arr.map (fun b => ((pyInt (b / antenna_mod_index baseline_arr)) : ℝ))

/-- obs.py lines 74 to 96: resolve the tile pairing.  Returns
(tile_A, tile_B, n_tile, warnings).  The explicit antenna columns are
used unmodified when both have a positive maximum; otherwise the packed
baseline encoding is decoded and the header tile count is corrected to
the data-derived count (with a warning) on mismatch.  numpy `np.max` or
`np.min` over an empty array raises. -/
noncomputable def resolve_tiles (headerNTile : ℝ) (antenna1 antenna2 baseline_arr : List ℝ) :
    Except PyError (List ℝ × List ℝ × ℝ × List String) :=
  if antenna1 = [] ∨ antenna2 = [] then .error .raised
  else if 0 < listMax antenna1 ∧ 0 < listMax antenna2 then
    .ok (antenna1, antenna2, max (listMax antenna1) (listMax antenna2), [])
  else if baseline_arr = [] then .error .raised
  else
    let tileA := decode_tile_A baseline_arr
    let tileB := decode_tile_B baseline_arr
    let dataNTile := max (listMax tileA) (listMax tileB)
    if dataNTile = headerNTile then .ok (tileA, tileB, headerNTile, [])
    else .ok (tileA, tileB, dataNTile, [misMatchedMsg])

/-- obs.py lines 107 to 113: choose obs.kbinsize.  Line 109 stores the
FoV-derived value, but lines 110 to 113 then overwrite it
unconditionally with the configured kbinsize or the 0.5 default; the
FoV-derived store is dead.  A configured FoV of zero raises
ZeroDivisionError at line 109. -/
noncomputable def obs_kbinsize (fov kb : Option ℝ) : Except PyError ℝ :=
  match fov with
  | some f =>
    if f = 0 then .error .raised
    else
      let fovKbinsize := (180 / Real.pi) / f
      match kb with
      | none => .ok (0.5 + fovKbinsize * 0)
      | some k => .ok (k + fovKbinsize * 0)
  | none =>
    match kb with
    | none => .ok 0.5
    | some k => .ok k

/-- obs.py line 117: the derived image dimension
`2 ** int(log10((2 * max_baseline) / kbinsize) / log10(2))`, after the
final `int()` conversion of line 129. -/
noncomputable def derived_dimension (maxBaseline kb : ℝ) : ℤ :=
  pyInt ((2 : ℝ) ^ (pyInt (log10 ((2 * maxBaseline) / kb) / log10 2)))

/-- obs.py lines 116 to 130: choose obs.dimension and obs.elements (as
ints, lines 129 to 130).  The derived branch divides by the raw
configured kbinsize (line 117): a None there raises TypeError, and a
nonpositive log10 argument raises a math domain error. -/
noncomputable def obs_dimension_elements (dim elems : Option ℝ) (maxBaseline : ℝ)
    (kbCfg : Option ℝ) : Except PyError (ℤ × ℤ) :=
  match dim, elems with
  | none, none =>
    match kbCfg with
    | none => .error .raised
    | some kb =>
      if 0 < (2 * maxBaseline) / kb then
        .ok (derived_dimension maxBaseline kb, derived_dimension maxBaseline kb)
      else .error .raised
  | some d, none => .ok (pyInt d, pyInt d)
  | none, some e => .ok (pyInt e, pyInt e)
  | some d, some e => .ok (pyInt d, pyInt e)

/-- obs.py lines 187 to 192: the all-but-one-tiles-flagged check on the
METAFITS flag column.  Returns the logged warnings, or `exited` when
the run is not a simulation. -/
def tileFlagCheck (flags : List ℤ) (sim : Bool) : Except PyError (List String) :=
  if flags.sum = (flags.length : ℤ) - 1 then
    if sim then .ok [allFlaggedMsg] else .error .exited
  else .ok []

/-- obs.py lines 201 to 212: the header-derived fallback tile flags.
Unit-bin histograms of both antenna columns between 1 and n_tile are
summed; a tile index with zero total count is flagged with 1, all
others 0. -/
noncomputable def fallbackTileFlag (a1 a2 : List ℝ) (n_tile : ℕ) : List ℤ :=
  let histA := histogram_counts a1 1 n_tile
  let histB := histogram_counts a2 1 n_tile
  let histAB := List.zipWith (fun x y => x + y) histA histB
  histAB.map (fun h => if h = 0 then (1 : ℤ) else 0)

/-- obs.py lines 233 to 295: `project_slant_orthographic`.  Builds the
slant-orthographic (SIN) astrometry record from the phase center and
zenith point and returns it with the zenith pixel coordinates. -/
noncomputable def project_slant_orthographic (meta : MetaPre) (obs : Obs)
    (epoch : ℝ := 2000) : Astr × ℝ × ℝ :=
  let lon_offset :=
    if 90 < |meta.phasera - meta.zenra| then
      meta.phasera - (if meta.zenra < meta.phasera then (360 : ℝ) else -360) - meta.zenra
    else meta.phasera - meta.zenra
  let zenith_ang := angle_difference meta.phasera meta.phasedec meta.zenra meta.zendec true
  let parallactic_ang := parallactic_angle meta.zendec lon_offset meta.phasedec
  let xi := -1 * Real.tan (radians zenith_ang) * Real.sin (radians parallactic_ang)
  let eta := Real.tan (radians zenith_ang) * Real.cos (radians parallactic_ang)
  let astr : Astr := {
    naxis := (obs.dimension, obs.elements),
    cd := ((1, 0), (0, 1)),
    cdelt := (obs.degpix, obs.degpix),
    crpix := (meta.obsx + 1, meta.obsy + 1),
    crval := (meta.phasera, meta.phasedec),
    ctype := ("RA---SIN", "DEC--SIN"),
    longpole := 180,
    latpole := 0,
    pv2 := (xi, eta),
    pv1 := [0, 0, 90, 180, 0],
    axes := (1, 2),
    reverse := 0,
    coord_sys := "C",
    projection := "SIN",
    known := [1],
    radecsys := "ICRS",
    equinox := epoch,
    date_obs := meta.jd0,
    mjd_obs := meta.jd0 - 2400000.5,
    x0y0 := (0, 0) }
  let zen := radec_to_pixel meta.zenra meta.zendec astr
  (astr, zen.1, zen.2)

/-- obs.py lines 145 to 231: `read_metafits`.  The METAFITS lookup is the
`metafits` argument (`none` = file absent).  Returns the metadata record
together with the warning messages logged.  `np.min` over an empty
`jdate` raises, as does indexing the pol column of an empty table. -/
noncomputable def read_metafits (obs : Obs) (hdr : PyfhdHeader) (params : Params)
    (cfg : PyfhdConfig) (metafits : Option MetafitsFile) :
    Except PyError (Meta × List String) :=
  let time := params.time
  let b0i := idl_argunique time
  if time = [] then .error .raised
  else
    let jdate := b0i.map (fun i => time.getD i 0)
    let obsx := (obs.dimension : ℝ) / 2
    let obsy := (obs.elements : ℝ) / 2
    let jd0 := listMin jdate
    let epoch := jdToDecimalYear jd0
    let branch : Except PyError MetaBranch :=
      match metafits with
      | some f =>
        -- lines 176 to 198: stable sort by antenna, single-pol selection,
        -- flag check from the full flag column, header scalars
        match f.rows.mergeSort (fun a b => decide (a.antenna ≤ b.antenna)) with
        | [] => .error .raised
        | r0 :: rest =>
          let sorted := r0 :: rest
          let single := sorted.filter (fun r => decide (r.pol = r0.pol))
          let tile_flag := sorted.map (fun r => r.flag)
          match tileFlagCheck tile_flag cfg.run_simulation with
          | .error e => .error e
          | .ok warns =>
            .ok { tile_names := single.map (fun r => r.tile),
                  tile_height := single.map (fun r => r.height - hdr.alt),
                  tile_flag := tile_flag,
                  time_res := f.inttime,
                  obsra := f.ra, obsdec := f.dec,
                  phasera := f.raphase, phasedec := f.decphase,
                  delays := some (f.delays.splitOn ","),
                  warns := warns }
      | none =>
        -- lines 199 to 221: header-derived fallback
        let nt := (pyInt obs.n_tile).toNat
        .ok { tile_names := (List.range nt).map (fun i => ((i : ℝ) + 1)),
              tile_height := List.replicate nt 0,
              tile_flag := fallbackTileFlag params.antenna1 params.antenna2 nt,
              time_res :=
                if 1 < b0i.length then
                  (time.getD (b0i.getD 1 0) 0 - time.getD (b0i.getD 0 0) 0) * 24 * 3600
                else 1,
              obsra := hdr.obsra, obsdec := hdr.obsdec,
              phasera := hdr.obsra, phasedec := hdr.obsdec,
              delays := none,
              warns := [metafitsMissingMsg] }
    match branch with
    | .error e => .error e
    | .ok br =>
      -- lines 222 to 229: zenith pointing, projection, alt-az orientation
      let zen := altaz_to_radec 90 0 hdr.lat hdr.lon hdr.alt jd0
      let mpre : MetaPre := {
        jdate := jdate, obsx := obsx, obsy := obsy, jd0 := jd0, epoch := epoch,
        tile_names := br.tile_names, tile_height := br.tile_height,
        tile_flag := br.tile_flag, time_res := br.time_res,
        obsra := br.obsra, obsdec := br.obsdec,
        phasera := br.phasera, phasedec := br.phasedec,
        delays := br.delays, zenra := zen.1, zendec := zen.2 }
      let p := project_slant_orthographic mpre obs
      let aa := radec_to_altaz br.obsra br.obsdec hdr.lat hdr.lon hdr.alt jd0
      .ok ({ toMetaPre := mpre, astr := p.1, zenx := p.2.1, zeny := p.2.2,
             obsalt := aa.1, obsaz := aa.2 }, br.warns)

/-- obs.py lines 11 to 143: `create_obs`.  Builds the observation record.
Failure points of the source are preserved: a single (or no) time step
makes line 50 index an int scalar (TypeError); empty frequency, uu or
vv arrays make numpy reductions raise; a None configured kbinsize or
dimension raises at line 117 or 131; empty selections raise at lines
134 and 136.  Line 140 binds the metadata record from `read_metafits`
and line 143 then returns only `obs`: the meta record is discarded. -/
noncomputable def create_obs (hdr : PyfhdHeader) (params : Params) (cfg : PyfhdConfig)
    (metafits : Option MetafitsFile) : Except PyError Obs :=
  let time := params.time
  let b0i := idl_argunique time
  let n_time := b0i.length
  if n_time ≤ 1 then .error .raised
  else
    -- lines 44 to 54: bin widths and offsets per unique time
    let binWidth : List ℝ := (List.range n_time).map
      (fun i => if i = 0 then (b0i.getD 0 0 : ℝ) + 1
        else (b0i.getD i 0 : ℝ) - (b0i.getD (i - 1) 0 : ℝ))
    let binOffset : List ℤ := (List.range n_time).map (fun i => pyInt ((binWidth.take i).sum))
    let n_baselines := binWidth.getD 0 0
    let n_vis := time.length * hdr.n_freq
    if hdr.frequency_array = [] then .error .raised
    else
      -- lines 59 to 72: frequency binning
      let bna := cfg.beam_nfreq_avg.getD 1
      let freqBin := bna * hdr.freq_res
      if freqBin ≤ 0 then .error .raised
      else
        let fbin : List ℝ := hdr.frequency_array.map
          (fun f => ((histogram_bin (listMin hdr.frequency_array) freqBin f : ℤ) : ℝ))
        let freq_center := npMedian hdr.frequency_array
        match resolve_tiles hdr.n_tile params.antenna1 params.antenna2 params.baseline_arr with
        | .error e => .error e
        | .ok (tileA, tileB, nTile, _warns) =>
          -- lines 95 to 96 store the resolved columns back into params
          let params2 := { params with antenna1 := tileA, antenna2 := tileB }
          let freq_use := hdr.n_freq + 1
          let tile_use := nTile + 1
          if params.uu = [] ∨ params.vv = [] then .error .raised
          else
            -- lines 101 to 105: k-space coordinates
            let kx := outerProd hdr.frequency_array params.uu
            let ky := outerProd hdr.frequency_array params.vv
            let kr := List.zipWith (fun x y => Real.sqrt (x ^ 2 + y ^ 2)) kx ky
            let maxBaseline := max (listMax (kx.map (fun x => |x|)))
              (listMax (ky.map (fun y => |y|)))
            match obs_kbinsize cfg.FoV cfg.kbinsize with
            | .error e => .error e
            | .ok kbin =>
              match obs_dimension_elements cfg.dimension cfg.elements maxBaseline cfg.kbinsize with
              | .error e => .error e
              | .ok (dim, elems) =>
                -- line 131: degpix multiplies the raw configured values;
                -- a None kbinsize or dimension raises TypeError here
                match cfg.kbinsize, cfg.dimension with
                | some kbRaw, some dimRaw =>
                  if kbRaw * dimRaw = 0 then .error .raised
                  else
                    let degpix := (180 / Real.pi) / (kbRaw * dimRaw)
                    -- lines 133 to 138: usable baseline extrema
                    let selected := (List.zipWith (fun x y => (x, y)) kx ky).filter
                      (fun q => decide (|q.1| / kbin < (dim : ℝ) / 2 ∧
                        |q.2| / kbin < (elems : ℝ) / 2))
                    match selected with
                    | [] => .error .raised
                    | _ :: _ =>
                      let obsMaxBaseline := listMax (selected.map (fun q => |q.1|))
                      let krNonzero := kr.filter (fun r => decide (¬ r = 0))
                      match krNonzero with
                      | [] => .error .raised
                      | _ :: _ =>
                        let obsMinBaseline :=
                          match cfg.min_baseline with
                          | none => listMin krNonzero
                          | some mb => max mb (listMin krNonzero)
                        let obs : Obs := {
                          n_pol := hdr.n_pol, n_tile := nTile, n_freq := hdr.n_freq,
                          instrument := cfg.instrument, n_time := n_time,
                          n_baselines := n_baselines, n_vis := n_vis,
                          n_vis_raw := n_vis, n_vis_in := n_vis,
                          n_vis_arr := List.replicate hdr.n_freq 0,
                          freq_res := hdr.freq_res, beam_nfreq_avg := bna,
                          freq_center := freq_center, kbinsize := kbin,
                          dimension := dim, elements := elems, degpix := degpix,
                          max_baseline := obsMaxBaseline, min_baseline := obsMinBaseline,
                          baseline_info := {
                            bin_offset := binOffset, freq := hdr.frequency_array,
                            fbin_i := fbin, freq_use := freq_use, tile_use := tile_use,
                            tile_A := tileA, tile_B := tileB } }
                        match read_metafits obs hdr params2 cfg metafits with
                        | .error e => .error e
                        | .ok _ => .ok obs
                | _, _ => .error .raised

/-- The packed-baseline modulus is a positive real power of two (possibly
divided by another), hence positive. -/
lemma antenna_mod_index_pos (l : List ℝ) : 0 < antenna_mod_index l := by
  simp only [antenna_mod_index]
  split
  · positivity
  · positivity

/-- A list of 0/1 flags sums to its count of ones. -/
lemma sum_of_zero_one (l : List ℤ) (h : ∀ x ∈ l, x = 0 ∨ x = 1) :
    l.sum = (l.count 1 : ℤ) := by
  induction l with
  | nil => simp
  | cons a t ih =>
    have ht := ih (fun x hx => h x (by simp [hx]))
    rcases h a (by simp) with h0 | h1
    · subst h0
      simp [List.count_cons, ht]
    · subst h1
      simp [List.count_cons, ht]
      ring

/-- C1: the claim says a configured FoV determines obs.kbinsize as
(180/pi)/FoV.  In the code the FoV-derived store (line 109) is dead:
lines 110 to 113 unconditionally overwrite it with the configured
kbinsize or the default 0.5.  At FoV = 2 with no configured kbinsize
the code yields 0.5, while the claim requires (180/pi)/2. -/
theorem c1_fov_overwritten :
    obs_kbinsize (some 2) none = Except.ok ((1 : ℝ) / 2) ∧
      ((1 : ℝ) / 2) ≠ (180 / Real.pi) / 2 := by
  constructor
  · simp only [obs_kbinsize]
    rw [if_neg (by norm_num : ¬ (2 : ℝ) = 0)]
    norm_num
  · intro h
    have hne : Real.pi ≠ 0 := ne_of_gt Real.pi_pos
    field_simp at h

/-- C3: in the packed-baseline decoding branch of `create_obs`, every
non-negative baseline entry decodes to equal tile_A and tile_B values,
since floor and fix agree on the non-negative quotient by the positive
modulus; no decoded baseline pairs two distinct antennas. -/
theorem c3_decode_tiles_equal (bl : List ℝ) (i : ℕ) (b : ℝ)
    (hb : bl[i]? = some b) (h0 : 0 ≤ b) :
    (decode_tile_A bl)[i]? = (decode_tile_B bl)[i]? := by
  have hm := antenna_mod_index_pos bl
  have hq : 0 ≤ b / antenna_mod_index bl := div_nonneg h0 hm.le
  simp only [decode_tile_A, decode_tile_B, List.getElem?_map, hb, Option.map_some']
  rw [pyInt, if_pos hq]

/-- Witness for C3 at the concrete baseline array [6]. -/
theorem c3_decode_tiles_equal_witness :
    ([(6 : ℝ)])[0]? = some (6 : ℝ) ∧ (0 : ℝ) ≤ 6 ∧
      (decode_tile_A [6])[0]? = (decode_tile_B [6])[0]? :=
  ⟨rfl, by norm_num, c3_decode_tiles_equal [6] 0 6 rfl (by norm_num)⟩

/-- C8: when both explicit antenna columns have a positive maximum,
`create_obs` (via `resolve_tiles`, obs.py lines 74 to 79) uses them
unmodified as tile_A and tile_B, takes n_tile from their maxima, logs
nothing, and the packed-baseline decoding branch is not taken. -/
theorem c8_explicit_antennas (nt : ℝ) (a1 a2 bl : List ℝ)
    (h1 : ¬ a1 = []) (h2 : ¬ a2 = []) (p1 : 0 < listMax a1) (p2 : 0 < listMax a2) :
    resolve_tiles nt a1 a2 bl =
      Except.ok (a1, a2, max (listMax a1) (listMax a2), []) := by
  unfold resolve_tiles
  rw [if_neg (not_or.mpr ⟨h1, h2⟩), if_pos ⟨p1, p2⟩]

/-- Witness for C8 at antenna columns [1] and [2]. -/
theorem c8_explicit_antennas_witness :
    ¬ ([(1 : ℝ)] = []) ∧ ¬ ([(2 : ℝ)] = []) ∧
      0 < listMax [(1 : ℝ)] ∧ 0 < listMax [(2 : ℝ)] ∧
      resolve_tiles 2 [1] [2] [0] =
        Except.ok ([1], [2], max (listMax [1]) (listMax [2]), []) :=
  ⟨by simp, by simp, by norm_num [listMax], by norm_num [listMax],
    c8_explicit_antennas 2 [1] [2] [0] (by simp) (by simp)
      (by norm_num [listMax]) (by norm_num [listMax])⟩

/-- C6: in the METAFITS branch of `read_metafits` (the flag check of
obs.py lines 186 to 192, embedded as `tileFlagCheck` and invoked there
on the loaded flag column), 0/1 flags with all tiles but one flagged
terminate the run via exit() unless run_simulation holds, in which case
only a warning is logged; with fewer tiles flagged neither happens. -/
theorem c6_all_but_one_flagged (flags : List ℤ) (sim : Bool)
    (hne : flags ≠ []) (h01 : ∀ x ∈ flags, x = 0 ∨ x = 1) :
    (flags.count 1 = flags.length - 1 →
      tileFlagCheck flags sim =
        if sim then Except.ok [allFlaggedMsg] else Except.error PyError.exited)
    ∧ (flags.count 1 < flags.length - 1 → tileFlagCheck flags sim = Except.ok []) := by
  have hsum := sum_of_zero_one flags h01
  have hlen : 0 < flags.length := List.length_pos.mpr hne
  constructor
  · intro hc
    have hs : flags.sum = (flags.length : ℤ) - 1 := by
      rw [hsum]
      omega
    unfold tileFlagCheck
    rw [if_pos hs]
  · intro hc
    have hs : ¬ flags.sum = (flags.length : ℤ) - 1 := by
      rw [hsum]
      omega
    unfold tileFlagCheck
    rw [if_neg hs]

/-- Witness for C6 at the flag column [1, 1, 0] without simulation mode:
the run exits. -/
theorem c6_all_but_one_flagged_witness :
    ([(1 : ℤ), 1, 0] ≠ []) ∧ (∀ x ∈ [(1 : ℤ), 1, 0], x = 0 ∨ x = 1) ∧
      ([(1 : ℤ), 1, 0].count 1 = [(1 : ℤ), 1, 0].length - 1) ∧
      tileFlagCheck [1, 1, 0] false = Except.error PyError.exited :=
  ⟨by decide, by decide, by decide, by
    simpa using (c6_all_but_one_flagged [1, 1, 0] false (by decide) (by decide)).1 (by decide)⟩

/-- The ratio of base-10 logs taken at obs.py line 117 equals the base-2
log of the argument. -/
lemma log10_ratio (x : ℝ) : log10 x / log10 2 = Real.logb 2 x := by
  have h10 : Real.log 10 ≠ 0 := ne_of_gt (Real.log_pos (by norm_num))
  rw [log10, log10, Real.logb, div_div_div_cancel_right₀ h10]

/-- For a ratio of at least one, the derived dimension of obs.py
line 117 is the power of two with the truncated base-2 log as exponent:
the largest power of two not exceeding the ratio. -/
lemma derived_dimension_bounds (mb kb : ℝ) (h : 1 ≤ (2 * mb) / kb) :
    ((derived_dimension mb kb : ℝ) ≤ (2 * mb) / kb)
    ∧ ((2 * mb) / kb < 2 * (derived_dimension mb kb : ℝ))
    ∧ ∃ k : ℕ, derived_dimension mb kb = 2 ^ k := by
  have h0 : (0 : ℝ) < (2 * mb) / kb := lt_of_lt_of_le one_pos h
  have hy0 : 0 ≤ Real.logb 2 ((2 * mb) / kb) := Real.logb_nonneg (by norm_num) h
  have hz0 : 0 ≤ ⌊Real.logb 2 ((2 * mb) / kb)⌋ := Int.floor_nonneg.mpr hy0
  have hpy : pyInt (log10 ((2 * mb) / kb) / log10 2) = ⌊Real.logb 2 ((2 * mb) / kb)⌋ := by
    rw [log10_ratio, pyInt, if_pos hy0]
  set z := ⌊Real.logb 2 ((2 * mb) / kb)⌋ with hzdef
  have hzpow : (2 : ℝ) ^ z = ((2 ^ z.toNat : ℤ) : ℝ) := by
    conv_lhs => rw [show z = (z.toNat : ℤ) from (Int.toNat_of_nonneg hz0).symm]
    rw [zpow_natCast]
    push_cast
    ring
  have hdd : derived_dimension mb kb = 2 ^ z.toNat := by
    rw [derived_dimension, hpy, hzpow, pyInt,
      if_pos (by positivity : (0 : ℝ) ≤ ((2 ^ z.toNat : ℤ) : ℝ)), Int.floor_intCast]
  have hrz : ((2 ^ z.toNat : ℤ) : ℝ) = (2 : ℝ) ^ ((z : ℤ) : ℝ) :=
    hzpow.symm.trans (Real.rpow_intCast 2 z).symm
  have hlogeq : (2 : ℝ) ^ (Real.logb 2 ((2 * mb) / kb)) = (2 * mb) / kb :=
    Real.rpow_logb (by norm_num) (by norm_num) h0
  refine ⟨?_, ?_, ⟨z.toNat, hdd⟩⟩
  · rw [hdd, hrz]
    calc (2 : ℝ) ^ ((z : ℤ) : ℝ) ≤ (2 : ℝ) ^ (Real.logb 2 ((2 * mb) / kb)) :=
          Real.rpow_le_rpow_of_exponent_le (by norm_num)
            (by rw [hzdef]; exact_mod_cast Int.floor_le _)
      _ = (2 * mb) / kb := hlogeq
  · rw [hdd, hrz]
    have hlt : (2 * mb) / kb < (2 : ℝ) ^ (((z : ℤ) : ℝ) + 1) := by
      calc (2 * mb) / kb = (2 : ℝ) ^ (Real.logb 2 ((2 * mb) / kb)) := hlogeq.symm
        _ < (2 : ℝ) ^ (((z : ℤ) : ℝ) + 1) :=
            Real.rpow_lt_rpow_of_exponent_lt (by norm_num)
              (by
                have hfl := Int.lt_floor_add_one (Real.logb 2 ((2 * mb) / kb))
                rw [hzdef]
                push_cast
                linarith)
    rw [Real.rpow_add (by norm_num), Real.rpow_one] at hlt
    linarith

/-- C4: `create_obs` (via `obs_dimension_elements`, obs.py lines 116 to
130) selects obs.dimension and obs.elements with the precedence: both
configured values when both are set, the single configured value for
both fields when exactly one is set, and the derived power-of-two value
for both when neither is set. -/
theorem c4_dimension_precedence (d e mb kb : ℝ) (kbCfg : Option ℝ) :
    obs_dimension_elements (some d) (some e) mb kbCfg = Except.ok (pyInt d, pyInt e)
    ∧ obs_dimension_elements (some d) none mb kbCfg = Except.ok (pyInt d, pyInt d)
    ∧ obs_dimension_elements none (some e) mb kbCfg = Except.ok (pyInt e, pyInt e)
    ∧ (0 < (2 * mb) / kb →
        obs_dimension_elements none none mb (some kb) =
          Except.ok (derived_dimension mb kb, derived_dimension mb kb)) := by
  refine ⟨rfl, rfl, rfl, fun h => ?_⟩
  show (if 0 < (2 * mb) / kb then
      Except.ok (derived_dimension mb kb, derived_dimension mb kb)
    else Except.error PyError.raised) = _
  rw [if_pos h]

/-- Witness for C4 at configured values 3 and 5 and at the derived
branch with max baseline 1 and kbinsize one half. -/
theorem c4_dimension_precedence_witness :
    (0 : ℝ) < (2 * 1) / (1 / 2) ∧
      obs_dimension_elements (some 3) (some 5) 1 none = Except.ok (pyInt 3, pyInt 5) ∧
      obs_dimension_elements none none 1 (some (1 / 2)) =
        Except.ok (derived_dimension 1 (1 / 2), derived_dimension 1 (1 / 2)) :=
  ⟨by norm_num, (c4_dimension_precedence 3 5 1 (1 / 2) none).1,
    (c4_dimension_precedence 3 5 1 (1 / 2) none).2.2.2 (by norm_num)⟩

/-- The truncated base-2 log of 3 is 1. -/
lemma pyInt_log_ratio_three :
    pyInt (log10 ((2 * ((3 : ℝ) / 4)) / (1 / 2)) / log10 2) = 1 := by
  have h3 : (2 * ((3 : ℝ) / 4)) / (1 / 2) = 3 := by norm_num
  rw [h3, log10_ratio]
  have hl2 : 0 < Real.log 2 := Real.log_pos (by norm_num)
  have ha : Real.log 2 ≤ Real.log 3 := Real.log_le_log (by norm_num) (by norm_num)
  have hb : Real.log 3 < Real.log 4 := Real.log_lt_log (by norm_num) (by norm_num)
  have h4 : Real.log 4 = 2 * Real.log 2 := by
    rw [show (4 : ℝ) = 2 ^ 2 by norm_num, Real.log_pow]
    push_cast
    ring
  rw [Real.logb]
  have hge : 1 ≤ Real.log 3 / Real.log 2 := (le_div_iff hl2).mpr (by linarith)
  have hlt : Real.log 3 / Real.log 2 < 2 := (div_lt_iff hl2).mpr (by linarith)
  rw [pyInt, if_pos (by linarith)]
  exact Int.floor_eq_iff.mpr ⟨by exact_mod_cast hge, by push_cast; linarith⟩

/-- Counterexample to C5: at max baseline 3/4 and configured kbinsize
one half the ratio is 3, and the code computes dimension 2, which does
not cover the ratio (the smallest covering power of two would be 4). -/
theorem c5_counterexample :
    obs_dimension_elements none none (3 / 4) (some (1 / 2)) = Except.ok (2, 2)
    ∧ ¬ ((2 * ((3 : ℝ) / 4)) / (1 / 2) ≤ ((2 : ℤ) : ℝ)) := by
  have hdd : derived_dimension (3 / 4) (1 / 2) = 2 := by
    rw [derived_dimension, pyInt_log_ratio_three, zpow_one, pyInt,
      if_pos (by norm_num : (0 : ℝ) ≤ 2)]
    norm_num
  constructor
  · show (if 0 < (2 * ((3 : ℝ) / 4)) / (1 / 2) then
        Except.ok (derived_dimension (3 / 4) (1 / 2), derived_dimension (3 / 4) (1 / 2))
      else Except.error PyError.raised) = Except.ok (2, 2)
    rw [if_pos (by norm_num), hdd]
  · norm_num

/-- C5 as amended: when neither dimension nor elements is configured
(and the configured kbinsize gives a ratio of at least one), the code
sets obs.dimension to 2 to the power int(log2(2 * max_baseline /
kbinsize)): the largest power of two not exceeding the ratio, rather
than the smallest power of two covering it; obs.elements equals
obs.dimension. -/
theorem c5_derived_dimension_amended (mb kb : ℝ) (h : 1 ≤ (2 * mb) / kb) :
    obs_dimension_elements none none mb (some kb) =
      Except.ok (derived_dimension mb kb, derived_dimension mb kb)
    ∧ ((derived_dimension mb kb : ℝ) ≤ (2 * mb) / kb)
    ∧ ((2 * mb) / kb < 2 * (derived_dimension mb kb : ℝ))
    ∧ ∃ k : ℕ, derived_dimension mb kb = 2 ^ k := by
  refine ⟨?_, derived_dimension_bounds mb kb h⟩
  show (if 0 < (2 * mb) / kb then
      Except.ok (derived_dimension mb kb, derived_dimension mb kb)
    else Except.error PyError.raised) = _
  rw [if_pos (lt_of_lt_of_le one_pos h)]

/-- Witness for the amended C5 at max baseline 1 and kbinsize one half
(ratio 4). -/
theorem c5_derived_dimension_amended_witness :
    (1 : ℝ) ≤ (2 * 1) / (1 / 2) ∧
      (obs_dimension_elements none none 1 (some (1 / 2)) =
        Except.ok (derived_dimension 1 (1 / 2), derived_dimension 1 (1 / 2))
      ∧ ((derived_dimension 1 (1 / 2) : ℝ) ≤ (2 * 1) / (1 / 2))
      ∧ ((2 * (1 : ℝ)) / (1 / 2) < 2 * (derived_dimension 1 (1 / 2) : ℝ))
      ∧ ∃ k : ℕ, derived_dimension 1 (1 / 2) = 2 ^ k) :=
  ⟨by norm_num, c5_derived_dimension_amended 1 (1 / 2) (by norm_num)⟩

/-- C9: in `project_slant_orthographic`, when the phase center coincides
with the zenith point, the computed zenith angle (the
`angle_difference` call of obs.py line 256) is 0 and both projection
offsets xi and eta stored in astr.pv2 are 0. -/
theorem c9_zenith_projection (m : MetaPre) (o : Obs)
    (h1 : m.phasera = m.zenra) (h2 : m.phasedec = m.zendec) :
    angle_difference m.phasera m.phasedec m.zenra m.zendec true = 0
    ∧ (project_slant_orthographic m o).1.pv2 = (0, 0) := by
  have hsep : angle_difference m.phasera m.phasedec m.zenra m.zendec true = 0 := by
    rw [h1, h2]
    simp only [angle_difference, sub_self, Real.cos_zero, mul_one]
    rw [show Real.sin (radians m.zendec) * Real.sin (radians m.zendec) +
        Real.cos (radians m.zendec) * Real.cos (radians m.zendec) = 1 from by
      have := Real.sin_sq_add_cos_sq (radians m.zendec)
      nlinarith]
    rw [Real.arccos_one]
    simp
  refine ⟨hsep, ?_⟩
  simp only [project_slant_orthographic]
  rw [hsep]
  simp [radians, Real.tan_zero]

/-- An all-zero metadata record used as a concrete witness input. -/
noncomputable def metaPreZ : MetaPre :=
  { jdate := [], obsx := 0, obsy := 0, jd0 := 0, epoch := 0, tile_names := [],
    tile_height := [], tile_flag := [], time_res := 0, obsra := 0, obsdec := 0,
    phasera := 0, phasedec := 0, delays := none, zenra := 0, zendec := 0 }

/-- A concrete observation record with two tiles used as a witness
input. -/
noncomputable def obsZ : Obs :=
  { n_pol := 2, n_tile := 2, n_freq := 1, instrument := "mwa", n_time := 2,
    n_baselines := 1, n_vis := 2, n_vis_raw := 2, n_vis_in := 2, n_vis_arr := [0],
    freq_res := 1, beam_nfreq_avg := 1, freq_center := 1, kbinsize := 1 / 2,
    dimension := 4, elements := 4, degpix := 1, max_baseline := 1 / 2,
    min_baseline := 1 / 2,
    baseline_info :=
      { bin_offset := [0, 1], freq := [1], fbin_i := [0], freq_use := 2,
        tile_use := 3, tile_A := [1], tile_B := [2] } }

/-- Witness for C9 at the all-zero metadata record. -/
theorem c9_zenith_projection_witness :
    metaPreZ.phasera = metaPreZ.zenra ∧ metaPreZ.phasedec = metaPreZ.zendec ∧
      (angle_difference metaPreZ.phasera metaPreZ.phasedec metaPreZ.zenra
          metaPreZ.zendec true = 0
        ∧ (project_slant_orthographic metaPreZ obsZ).1.pv2 = (0, 0)) :=
  ⟨rfl, rfl, c9_zenith_projection metaPreZ obsZ rfl rfl⟩

/-- The fallback tile-flag array has one entry per tile. -/
lemma fallbackTileFlag_length (a1 a2 : List ℝ) (nt : ℕ) :
    (fallbackTileFlag a1 a2 nt).length = nt := by
  simp only [fallbackTileFlag, histogram_counts]
  rw [List.length_map, List.length_zipWith, List.length_map, List.length_map,
    List.length_range, min_self]

/-- A unit-bin count is zero exactly when the integer-valued list does
not contain the bin value. -/
lemma histogram_count_zero_iff (l : List ℝ) (i : ℕ)
    (hl : ∀ a ∈ l, ∃ z : ℤ, a = (z : ℝ)) :
    ((l.filter (fun a => decide (⌊a⌋ = 1 + (i : ℤ)))).length = 0 ↔ ((i : ℝ) + 1) ∉ l) := by
  rw [List.length_eq_zero, List.filter_eq_nil]
  constructor
  · intro hall hmem
    have hx := hall _ hmem
    rw [decide_eq_true_eq] at hx
    apply hx
    rw [show ((i : ℝ) + 1) = ((1 + (i : ℤ) : ℤ) : ℝ) from by push_cast; ring,
      Int.floor_intCast]
  · intro hnot a ha
    rw [decide_eq_true_eq]
    intro hfl
    obtain ⟨z, rfl⟩ := hl a ha
    rw [Int.floor_intCast] at hfl
    apply hnot
    rw [show ((i : ℝ) + 1) = ((1 + (i : ℤ) : ℤ) : ℝ) from by push_cast; ring, ← hfl]
    exact ha

/-- Entry i of the fallback tile-flag array is 1 exactly when antenna
number i+1 appears in neither antenna column, 0 otherwise. -/
lemma fallbackTileFlag_getD (a1 a2 : List ℝ) (nt i : ℕ) (hi : i < nt)
    (h1 : ∀ a ∈ a1, ∃ z : ℤ, a = (z : ℝ)) (h2 : ∀ a ∈ a2, ∃ z : ℤ, a = (z : ℝ)) :
    (fallbackTileFlag a1 a2 nt).getD i 0 =
      if ((i : ℝ) + 1) ∈ a1 ∨ ((i : ℝ) + 1) ∈ a2 then 0 else 1 := by
  have hA := histogram_count_zero_iff a1 i h1
  have hB := histogram_count_zero_iff a2 i h2
  simp only [fallbackTileFlag, histogram_counts, List.getD_eq_getElem?_getD,
    List.getElem?_map, List.getElem?_zipWith, List.getElem?_range hi]
  by_cases hmem : ((i : ℝ) + 1) ∈ a1 ∨ ((i : ℝ) + 1) ∈ a2
  · rw [if_pos hmem]
    have hne : ¬ ((a1.filter (fun a => decide (⌊a⌋ = 1 + (i : ℤ)))).length = 0
        ∧ (a2.filter (fun a => decide (⌊a⌋ = 1 + (i : ℤ)))).length = 0) := by
      rcases hmem with hm | hm
      · intro hand
        exact (hA.mp hand.1) hm
      · intro hand
        exact (hB.mp hand.2) hm
    simp only [Option.map_some']
    rw [if_neg (by omega : ¬ ((a1.filter (fun a => decide (⌊a⌋ = 1 + (i : ℤ)))).length
      + (a2.filter (fun a => decide (⌊a⌋ = 1 + (i : ℤ)))).length = 0))]
    · rfl
  · rw [if_neg hmem]
    push_neg at hmem
    have hz1 := hA.mpr hmem.1
    have hz2 := hB.mpr hmem.2
    simp only [Option.map_some']
    rw [if_pos (by omega : (a1.filter (fun a => decide (⌊a⌋ = 1 + (i : ℤ)))).length
      + (a2.filter (fun a => decide (⌊a⌋ = 1 + (i : ℤ)))).length = 0)]
    rfl

/-- C7: when the METAFITS file is absent, `read_metafits` takes the
header-derived fallback branch: it logs the missing-file warning and
produces a tile_flag array of length n_tile whose entry for antenna
number i+1 is 1 exactly when that antenna appears in neither
params.antenna1 nor params.antenna2, and 0 otherwise. -/
theorem c7_fallback_tile_flags (o : Obs) (hdr : PyfhdHeader) (p : Params)
    (cfg : PyfhdConfig) (nt : ℕ) (hnt : o.n_tile = (nt : ℝ)) (ht : ¬ p.time = [])
    (h1 : ∀ a ∈ p.antenna1, ∃ z : ℤ, a = (z : ℝ))
    (h2 : ∀ a ∈ p.antenna2, ∃ z : ℤ, a = (z : ℝ)) :
    (read_metafits o hdr p cfg none).map (fun x => (x.1.tile_flag, x.2))
        = Except.ok (fallbackTileFlag p.antenna1 p.antenna2 nt, [metafitsMissingMsg])
    ∧ (fallbackTileFlag p.antenna1 p.antenna2 nt).length = nt
    ∧ ∀ i : ℕ, i < nt →
        (fallbackTileFlag p.antenna1 p.antenna2 nt).getD i 0 =
          if ((i : ℝ) + 1) ∈ p.antenna1 ∨ ((i : ℝ) + 1) ∈ p.antenna2 then 0 else 1 := by
  refine ⟨?_, fallbackTileFlag_length _ _ _,
    fun i hi => fallbackTileFlag_getD _ _ _ _ hi h1 h2⟩
  have hpt : (pyInt o.n_tile).toNat = nt := by
    rw [hnt, pyInt, if_pos (by positivity : (0 : ℝ) ≤ (nt : ℝ)), Int.floor_natCast]
    simp
  simp only [read_metafits]
  rw [if_neg ht]
  simp only [hpt, Except.map]

/-- Concrete UVFITS header used as a witness input. -/
noncomputable def hdrW : PyfhdHeader :=
  { n_pol := 2, n_tile := 2, n_freq := 1, freq_res := 1, frequency_array := [1],
    lat := 0, lon := 0, alt := 0, obsra := 10, obsdec := 0 }

/-- Concrete params record used as a witness input. -/
noncomputable def paramsW : Params :=
  { time := [0, 1], uu := [1 / 2], vv := [1 / 2], antenna1 := [1], antenna2 := [2],
    baseline_arr := [0] }

/-- Concrete configuration used as a witness input: kbinsize and
dimension and elements configured, everything else unset. -/
noncomputable def cfgW : PyfhdConfig :=
  { instrument := "mwa", beam_nfreq_avg := none, FoV := none, kbinsize := some (1 / 2),
    dimension := some 4, elements := some 4, min_baseline := none,
    run_simulation := false, input_path := "", obs_id := "" }

/-- Witness for C7 at the concrete two-tile inputs. -/
theorem c7_fallback_tile_flags_witness :
    obsZ.n_tile = ((2 : ℕ) : ℝ) ∧ ¬ paramsW.time = [] ∧
      ((read_metafits obsZ hdrW paramsW cfgW none).map (fun x => (x.1.tile_flag, x.2))
          = Except.ok (fallbackTileFlag paramsW.antenna1 paramsW.antenna2 2,
              [metafitsMissingMsg])
        ∧ (fallbackTileFlag paramsW.antenna1 paramsW.antenna2 2).length = 2
        ∧ ∀ i : ℕ, i < 2 →
            (fallbackTileFlag paramsW.antenna1 paramsW.antenna2 2).getD i 0 =
              if ((i : ℝ) + 1) ∈ paramsW.antenna1 ∨ ((i : ℝ) + 1) ∈ paramsW.antenna2
              then 0 else 1) :=
  ⟨by norm_num [obsZ], by simp [paramsW],
    c7_fallback_tile_flags obsZ hdrW paramsW cfgW 2 (by norm_num [obsZ])
      (by simp [paramsW])
      (fun a ha => ⟨1, by simp [paramsW] at ha; simp [ha]⟩)
      (fun a ha => ⟨2, by simp [paramsW] at ha; simp [ha]⟩)⟩

/-- Evaluation of the modelled `idl_argunique` at the two-step time
column. -/
lemma idl_argunique_01 : idl_argunique [(0 : ℝ), 1] = [0, 1] := by
  simp only [idl_argunique]
  norm_num [List.filter_cons, List.filter_nil, List.range_succ]

/-- Evaluation of `resolve_tiles` at the witness antenna columns. -/
lemma resolve_tiles_W :
    resolve_tiles 2 [(1 : ℝ)] [(2 : ℝ)] [(0 : ℝ)] = Except.ok ([1], [2], 2, []) := by
  unfold resolve_tiles
  rw [if_neg (by simp : ¬ ([(1 : ℝ)] = [] ∨ [(2 : ℝ)] = []))]
  rw [if_pos (show 0 < listMax [(1 : ℝ)] ∧ 0 < listMax [(2 : ℝ)] from by
    constructor <;> norm_num [listMax])]
  rw [show max (listMax [(1 : ℝ)]) (listMax [(2 : ℝ)]) = 2 from by
    norm_num [listMax]]

/-- With the METAFITS file absent, `read_metafits` succeeds whenever the
time column is nonempty (the fallback branch has no other failure
point). -/
lemma read_metafits_none_ok (o : Obs) (hdr : PyfhdHeader) (p : Params) (cfg : PyfhdConfig)
    (ht : ¬ p.time = []) :
    ∃ m, read_metafits o hdr p cfg none = Except.ok m := by
  simp only [read_metafits]
  rw [if_neg ht]
  exact ⟨_, rfl⟩

/-- The median of a single sample is that sample. -/
lemma npMedian_single (a : ℝ) : npMedian [a] = a := by
  simp [npMedian, List.mergeSort_singleton]

/-- The observation record `create_obs` produces at the witness inputs
`hdrW`, `paramsW`, `cfgW` with no METAFITS file. -/
noncomputable def obsWval : Obs :=
  { n_pol := 2, n_tile := 2, n_freq := 1, instrument := "mwa", n_time := 2,
    n_baselines := 1, n_vis := 2, n_vis_raw := 2, n_vis_in := 2, n_vis_arr := [0],
    freq_res := 1, beam_nfreq_avg := 1, freq_center := 1, kbinsize := 1 / 2,
    dimension := 4, elements := 4, degpix := 180 / Real.pi / 2,
    max_baseline := 1 / 2, min_baseline := (Real.sqrt 2)⁻¹,
    baseline_info :=
      { bin_offset := [0, 1], freq := [1], fbin_i := [0], freq_use := 2,
        tile_use := 3, tile_A := [1], tile_B := [2] } }

/-- Full evaluation of `create_obs` at the witness inputs, for any value
of the header obsra field: the result does not depend on obsra. -/
lemma create_obs_W (r : ℝ) :
    create_obs { hdrW with obsra := r } paramsW cfgW none = Except.ok obsWval := by
  simp only [create_obs, paramsW, cfgW, hdrW]
  rw [idl_argunique_01, resolve_tiles_W]
  norm_num [obs_kbinsize, obs_dimension_elements, outerProd, pyInt, listMax, listMin,
    histogram_bin, List.range_succ, List.filter_cons]
  rw [show |(1 : ℝ) / 2| = 1 / 2 from by norm_num]
  norm_num [npMedian_single]
  split
  · rename_i e heq
    exfalso
    obtain ⟨m, hm⟩ := read_metafits_none_ok _ _
      { time := [0, 1], uu := [1 / 2], vv := [1 / 2], antenna1 := [1], antenna2 := [2],
        baseline_arr := [0] } _ (by simp)
    rw [hm] at heq
    exact Except.noConfusion heq
  · rename_i a heq
    norm_num [obsWval]

/-- C2: `create_obs` completes without raising only when both the
configured kbinsize and the configured dimension are set: the degpix
computation of obs.py line 131 multiplies the raw configuration values
(and the derived-dimension branch of line 117 divides by the raw
configured kbinsize), so every run relying on the default kbinsize or
on the derived power-of-two dimension reaches an unguarded operation on
None and raises. -/
theorem c2_degpix_requires_config (hdr : PyfhdHeader) (p : Params) (cfg : PyfhdConfig)
    (mf : Option MetafitsFile) (o : Obs)
    (h : create_obs hdr p cfg mf = Except.ok o) :
    cfg.kbinsize.isSome = true ∧ cfg.dimension.isSome = true := by
  simp only [create_obs] at h
  repeat' split at h
  all_goals simp_all

/-- Witness for C2: a run with kbinsize and dimension configured
completes, and both options are indeed set. -/
theorem c2_degpix_requires_config_witness :
    create_obs hdrW paramsW cfgW none = Except.ok obsWval ∧
      cfgW.kbinsize.isSome = true ∧ cfgW.dimension.isSome = true := by
  have he : create_obs hdrW paramsW cfgW none = Except.ok obsWval := by
    have h10 := create_obs_W 10
    rwa [show { hdrW with obsra := (10 : ℝ) } = hdrW from rfl] at h10
  exact ⟨he, c2_degpix_requires_config hdrW paramsW cfgW none obsWval he⟩

/-- In the fallback branch the metadata obsra field is the header obsra
value. -/
lemma read_metafits_none_obsra (o : Obs) (hdr : PyfhdHeader) (p : Params)
    (cfg : PyfhdConfig) (ht : ¬ p.time = []) :
    (read_metafits o hdr p cfg none).map (fun x => x.1.obsra) = Except.ok hdr.obsra := by
  simp only [read_metafits]
  rw [if_neg ht]
  rfl

/-- C10: the claim says `create_obs` returns the metadata record built
by `read_metafits` along with the observation record.  In the code,
line 140 binds the meta record and line 143 returns only `obs`: two
runs whose headers differ in obsra produce different metadata records
in `read_metafits` yet identical `create_obs` outputs, so the returned
value cannot contain the metadata record. -/
theorem c10_meta_discarded :
    create_obs { hdrW with obsra := 10 } paramsW cfgW none
        = create_obs { hdrW with obsra := 20 } paramsW cfgW none
    ∧ ({ hdrW with obsra := (10 : ℝ) } : PyfhdHeader).obsra ≠
        ({ hdrW with obsra := (20 : ℝ) } : PyfhdHeader).obsra
    ∧ (read_metafits obsWval { hdrW with obsra := 10 } paramsW cfgW none).map
          (fun x => x.1.obsra)
        ≠ (read_metafits obsWval { hdrW with obsra := 20 } paramsW cfgW none).map
          (fun x => x.1.obsra) := by
  refine ⟨(create_obs_W 10).trans (create_obs_W 20).symm, by norm_num [hdrW], ?_⟩
  rw [read_metafits_none_obsra _ _ _ _ (by simp [paramsW]),
    read_metafits_none_obsra _ _ _ _ (by simp [paramsW])]
  simp [hdrW]
